import Mathlib

/-!
Shallow embedding of the `platform-mem` (linksplatform/mem-rs) growable raw
memory abstraction, translated from the Rust sources under `src/`.

Machine integers (`usize`) are modelled as `Nat` together with the explicit
bound `USIZE_MAX`; `checked_add` / `checked_sub` / `saturating_sub` are
modelled exactly.  Fallible Rust functions returning `Result<_, Error>` are
modelled as `Except Error _`.  A function whose Rust body is `todo!()`
(a guaranteed panic) is modelled as returning `none`.
-/

namespace MemRs

/-- 64-bit platform: maximum value of `usize`. -/
def USIZE_MAX : Nat := 2 ^ 64 - 1

/-- Maximum value of `isize`; `Layout::array` refuses byte sizes above it. -/
def ISIZE_MAX : Nat := 2 ^ 63 - 1

/-- `src/src/traits.rs` lines 6-7: `DEFAULT_PAGE_SIZE` is `8 * 1024` bytes on
every platform except `espidf` (512); we model the ordinary platform. -/
def DEFAULT_PAGE_SIZE : Nat := 8 * 1024

/-- `usize::saturating_sub`. -/
def saturatingSub (a b : Nat) : Nat := a - b

/-- `Layout::array::<T>(n)` succeeds iff the total byte size `n * size_of::<T>()`
stays within `isize::MAX` (the align-slack of the real check is immaterial to
every claim, which only exercises sizes far from the boundary). -/
def layoutArrayOk (sizeT n : Nat) : Bool := n * sizeT ≤ ISIZE_MAX

/-- The error enumeration of `src/src/raw_mem.rs` lines 15-53 (the
`AsyncFileMem` module and `PreAlloc` use the same type).  Payloads that no
claim inspects (`Layout`, io error) are dropped. -/
inductive Error : Type
  | CapacityOverflow : Error
  | OverAlloc (available toAlloc : Nat) : Error
  | AllocError : Error
  | System : Error
deriving DecidableEq, Repr

/-! ## Fixed-buffer backend: `PreAlloc` (`src/src/prealloc.rs`)

`grow` exposes `place[used .. used+addition]` to the initializer; we model the
initializer by the list `vals` (length `addition`) of values it writes into
that region.  The state is returned unchanged on every error path, modelling
that no reallocation (indeed no mutation) occurs. -/

structure PreAlloc (α : Type) where
  place : List α
  used : Nat
deriving DecidableEq, Repr

namespace PreAlloc

/-- `PreAlloc::new` (`src/src/prealloc.rs` lines 23-25). -/
def new (place : List α) : PreAlloc α := { place := place, used := 0 }

/-- `PreAlloc::grow` (`src/src/prealloc.rs` lines 39-54):
`used.checked_add(addition).ok_or(CapacityOverflow)?` is modelled by the
outer bound test; then `place.get_mut(used..cap)` is `Some` iff
`cap ≤ place.len()`, in which case the initializer fills the region and
`used` becomes `cap`; otherwise
`OverAlloc { available: place.len(), to_alloc: cap }`. -/
def grow (p : PreAlloc α) (addition : Nat) (vals : List α) :
    Except Error (PreAlloc α) :=
  if p.used + addition ≤ USIZE_MAX then
    if p.used + addition ≤ p.place.length then
      .ok { place := p.place.take p.used ++ (vals ++ p.place.drop (p.used + addition)),
            used := p.used + addition }
    else
      .error (.OverAlloc p.place.length (p.used + addition))
  else
    .error .CapacityOverflow

/-- `RawMem::grow_filled` specialised to `PreAlloc`: the fill strategy writes
`addition` clones of `value` (`src/src/raw_mem.rs` lines 221-263). -/
def growFilled (p : PreAlloc α) (addition : Nat) (value : α) :
    Except Error (PreAlloc α) :=
  grow p addition (List.replicate addition value)

/-- `PreAlloc::shrink` (`src/src/prealloc.rs` lines 56-58) is `todo!()`:
it unconditionally panics.  A panic produces no result, modelled as `none`. -/
def shrink (_p : PreAlloc α) (_cap : Nat) : Option (Except Error (PreAlloc α)) :=
  none

/-- `allocated()` returns `place[..used]`. -/
def allocated (p : PreAlloc α) : List α := p.place.take p.used

end PreAlloc

/-! ## Async file-backed backend: `AsyncFileMem` (`src/src/async_mem.rs`)

The backend holds an in-memory `Vec<T>` buffer, an optional path, and a dirty
flag.  The persistence target is modelled as the byte content of the file at
the handle's path (`List Nat`, one entry per byte); operations that touch the
file take it and return the new content.  Serialisation is parametrised by an
encoding `enc : α → List Nat` (`size_of::<T>()` bytes per element) with
decoder `dec`. -/

structure AsyncFileMem (α : Type) where
  buffer : List α
  pathIsSome : Bool
  dirty : Bool
deriving DecidableEq, Repr

namespace AsyncFileMem

/-- `AsyncFileMem::create` (`src/src/async_mem.rs` lines 75-93): truncates the
file and starts with an empty buffer, a `Some` path and a clear dirty flag.
Returns the handle together with the truncated file content. -/
def create (α : Type) : AsyncFileMem α × List Nat :=
  ({ buffer := [], pathIsSome := true, dirty := false }, [])

/-- One decoded element of `open`: bytes `[i*sizeT, (i+1)*sizeT)` of the file. -/
def decodeAt (dec : List Nat → α) (sizeT : Nat) (bytes : List Nat) (i : Nat) : α :=
  dec ((bytes.drop (i * sizeT)).take sizeT)

/-- `AsyncFileMem::open` (`src/src/async_mem.rs` lines 98-137): reads the
file's metadata length, computes `count = file_size / elem_size`, reads
exactly `count * elem_size` bytes and reinterprets them as `count` items.
When the file is empty or the element size is zero the buffer stays empty. -/
def openFile (dec : List Nat → α) (sizeT : Nat) (file : List Nat) :
    AsyncFileMem α :=
  let fileSize := file.length
  if fileSize > 0 ∧ sizeT > 0 then
    let count := fileSize / sizeT
    let bytes := file.take (count * sizeT)
    { buffer := (List.range count).map (decodeAt dec sizeT bytes),
      pathIsSome := true, dirty := false }
  else
    { buffer := [], pathIsSome := true, dirty := false }

/-- `AsyncFileMem::len`. -/
def len (m : AsyncFileMem α) : Nat := m.buffer.length

/-- `AsyncFileMem::as_slice_mut` (`src/src/async_mem.rs` lines 190-193): sets
the dirty flag and hands out the buffer. -/
def asSliceMut (m : AsyncFileMem α) : AsyncFileMem α × List α :=
  ({ m with dirty := true }, m.buffer)

/-- `AsyncFileMem::get` (`src/src/async_mem.rs` lines 197-199). -/
def get (m : AsyncFileMem α) (index : Nat) : Option α :=
  m.buffer.get? index

/-- `AsyncFileMem::set` (`src/src/async_mem.rs` lines 203-211): in range it
stores the value and sets the dirty flag, out of range it returns `None` and
leaves the state untouched. -/
def set (m : AsyncFileMem α) (index : Nat) (value : α) :
    Option (AsyncFileMem α) :=
  if index < m.buffer.length then
    some { m with buffer := m.buffer.set index value, dirty := true }
  else
    none

/-- `AsyncFileMem::grow_zeroed` (`src/src/async_mem.rs` lines 223-239):
`len.checked_add(addition)` else `CapacityOverflow`; `Layout::array` check
else `CapacityOverflow`; then the new region is filled with the all-zero
value `zero` and the dirty flag is set. -/
def growZeroed (sizeT : Nat) (zero : α) (m : AsyncFileMem α) (addition : Nat) :
    Except Error (AsyncFileMem α) :=
  if m.buffer.length + addition ≤ USIZE_MAX then
    if layoutArrayOk sizeT (m.buffer.length + addition) then
      .ok { m with buffer := m.buffer ++ List.replicate addition zero,
                   dirty := true }
    else
      .error .CapacityOverflow
  else
    .error .CapacityOverflow

/-- `AsyncFileMem::grow_filled` (`src/src/async_mem.rs` lines 242-254): same
checks, then `Vec::resize(new_len, value)` appends `addition` clones. -/
def growFilled (sizeT : Nat) (m : AsyncFileMem α) (addition : Nat) (value : α) :
    Except Error (AsyncFileMem α) :=
  if m.buffer.length + addition ≤ USIZE_MAX then
    if layoutArrayOk sizeT (m.buffer.length + addition) then
      .ok { m with buffer := m.buffer ++ List.replicate addition value,
                   dirty := true }
    else
      .error .CapacityOverflow
  else
    .error .CapacityOverflow

/-- `AsyncFileMem::grow_with` (`src/src/async_mem.rs` lines 257-273): the
`i`-th call of the factory is modelled as `f i`. -/
def growWith (sizeT : Nat) (m : AsyncFileMem α) (addition : Nat) (f : Nat → α) :
    Except Error (AsyncFileMem α) :=
  if m.buffer.length + addition ≤ USIZE_MAX then
    if layoutArrayOk sizeT (m.buffer.length + addition) then
      .ok { m with buffer := m.buffer ++ (List.range addition).map f,
                   dirty := true }
    else
      .error .CapacityOverflow
  else
    .error .CapacityOverflow

/-- `AsyncFileMem::grow_from_slice` (`src/src/async_mem.rs` lines 276-288). -/
def growFromSlice (sizeT : Nat) (m : AsyncFileMem α) (src : List α) :
    Except Error (AsyncFileMem α) :=
  if m.buffer.length + src.length ≤ USIZE_MAX then
    if layoutArrayOk sizeT (m.buffer.length + src.length) then
      .ok { m with buffer := m.buffer ++ src, dirty := true }
    else
      .error .CapacityOverflow
  else
    .error .CapacityOverflow

/-- `AsyncFileMem::shrink` (`src/src/async_mem.rs` lines 291-296):
`new_len = len.saturating_sub(count)`, then `Vec::truncate(new_len)`; always
returns `Ok(())` and sets the dirty flag. -/
def shrink (m : AsyncFileMem α) (count : Nat) : Except Error (AsyncFileMem α) :=
  .ok { m with buffer := m.buffer.take (saturatingSub m.buffer.length count),
               dirty := true }

/-- `AsyncFileMem::sync` (`src/src/async_mem.rs` lines 299-322): when a path
is present, opens the file with `truncate(true)` and writes the buffer's
`len * size_of::<T>()` bytes, then `sync_all`; in every case the dirty flag
is cleared.  Success path (the claims only speak about successful
completion). -/
def sync (enc : α → List Nat) (m : AsyncFileMem α) (file : List Nat) :
    AsyncFileMem α × List Nat :=
  if m.pathIsSome then
    ({ m with dirty := false }, m.buffer.flatMap enc)
  else
    ({ m with dirty := false }, file)

/-- `AsyncFileMem::flush` (`src/src/async_mem.rs` lines 333-356): identical
file effect, only the durability request differs. -/
def flush (enc : α → List Nat) (m : AsyncFileMem α) (file : List Nat) :
    AsyncFileMem α × List Nat :=
  if m.pathIsSome then
    ({ m with dirty := false }, m.buffer.flatMap enc)
  else
    ({ m with dirty := false }, file)

/-- `impl Drop for AsyncFileMem` (`src/src/async_mem.rs` lines 359-366): the
body is empty — dropping performs no write, the file is untouched. -/
def dropFile (_m : AsyncFileMem α) (file : List Nat) : List Nat := file

end AsyncFileMem

/-! ## Panic unwinding through `RawPlace::handle_fill` and `Guard`

`src/src/raw_place.rs` lines 43-67 together with the `Guard` of
`src/src/raw_mem.rs` lines 58-74.  We model the buffer the backend has just
(re)allocated for the grown block as a list of cells, `some v` for a live
initialized element and `none` for an uninitialized or already-destroyed
slot.  Before `handle_fill` runs, the buffer holds the `oldCap` previously
existing elements followed by `addition` uninitialized slots.

`handle_fill` then
1. takes the sub-slice of the `addition` new slots,
2. stores the new pointer into `self`, and replaces `self` by a dangling
   place (capacity 0), keeping the replaced value — new pointer, old
   capacity — as a local guard,
3. calls `fill` on the new slots, which may panic.

`grow_with` / `grow_filled` (`src/src/raw_mem.rs` lines 186-263) run the fill
under a `Guard { slice, init }` whose `Drop` destroys exactly the
`init`-element initialized front segment of the new region.  If the fill
panics after initializing `k` of the new slots, unwinding therefore
- drops the `Guard`, destroying those `k` new elements, then
- leaves `handle_fill` without executing the restoring `mem::replace`,
  dropping the local `RawPlace` guard, whose `Drop` runs
  `drop_in_place(ptr, oldCap)` — destroying the `oldCap` previously-existing
  elements — while `self` (the backend's place) stays dangling with
  capacity 0. -/

/-- `ptr::drop_in_place` over the cell range `[lo, lo + n)`: returns the
values destroyed (in order) and the buffer with those cells dead. -/
def dropInPlace (cells : List (Option α)) (lo n : Nat) :
    List α × List (Option α) :=
  (((cells.drop lo).take n).filterMap id,
   cells.take lo ++ (List.replicate (min n (cells.length - lo)) none ++
     cells.drop (lo + n)))

/-- Observable aftermath of a grow whose initializer panicked. -/
structure PanicAftermath (α : Type) where
  /-- the backend's reported capacity, `allocated().len()`, after the panic
  is caught -/
  capAfter : Nat
  /-- every element destroyed during unwinding, in drop order -/
  destroyed : List α
  /-- elements still live and observable through `allocated()` -/
  survivors : List α
deriving DecidableEq, Repr

/-- State after `grow_with`/`grow_filled`'s initializer panics inside
`RawPlace::handle_fill`: `old` are the previously-existing elements (already
moved to the freshly grown buffer), `vals` the values the initializer wrote
into the first `vals.length` new slots before panicking, `addition` the
number of new slots. -/
def growPanicAftermath (old vals : List α) (addition : Nat) :
    PanicAftermath α :=
  let oldCap := old.length
  let cells : List (Option α) :=
    old.map some ++ (vals.map some ++
      List.replicate (addition - vals.length) none)
  -- `Guard::drop` (raw_mem.rs 63-74): destroy the initialized front segment
  -- of the new region, `cells[oldCap .. oldCap + vals.length)`
  let step1 := dropInPlace cells oldCap vals.length
  -- `RawPlace::drop` of the local guard (raw_place.rs 76-82): new pointer,
  -- old capacity — destroy `cells[0 .. oldCap)`
  let step2 := dropInPlace step1.2 0 oldCap
  -- the backend's place was left dangling with capacity 0 (raw_place.rs 57)
  let finalCap := 0
  { capAfter := finalCap,
    destroyed := step1.1 ++ step2.1,
    survivors := (step2.2.take finalCap).filterMap id }

/-! ## Memory-mapped-file backend: `FileMapped` (`src/src/file_mapped.rs`)

State: the element view of the file's data region (`content`, a total
function so that its extent never constrains the model), the file length in
bytes, the currently mapped length in bytes, and the published capacity in
elements (`base.ptr.len()`).  Writes through the mapping write through to the
file, so `content` survives unmap/remap cycles.  `expandVal` models the value
produced by the backend's `expand` closure (`Base`, `src/src/base.rs`). -/

structure FileMapped (α : Type) where
  content : Nat → α
  fileLen : Nat
  mappedLen : Nat
  capacity : Nat

namespace FileMapped

/-- The `allocated()` view: the `capacity` elements at the front of the
mapping. -/
def view (m : FileMapped α) : List α := (List.range m.capacity).map m.content

/-- `FileMapped::new_with` (`src/src/file_mapped.rs` lines 41-55): computes
`capacity = DEFAULT_PAGE_SIZE / size_of::<T>()`, maps the whole current file,
then sets the file length to `max(len, capacity)` — an element count compared
against a byte length — and starts with a dangling base (capacity 0). -/
def newWith (sizeT : Nat) (fileLen0 : Nat) (content0 : Nat → α) :
    FileMapped α :=
  let capacity := DEFAULT_PAGE_SIZE / sizeT
  { content := content0,
    fileLen := max fileLen0 capacity,
    mappedLen := fileLen0,
    capacity := 0 }

/-- `FileMapped::alloc_impl` (`src/src/file_mapped.rs` lines 118-153), success
path, returning the new state together with the list of elements destroyed by
`Base::handle_narrow` (`src/src/base.rs` lines 38-40).  In source order:
destroy the trailing elements when narrowing, unmap, set the file length to
`max(file_len, newCap * size_of::<T>())`, remap exactly `newCap * size`
bytes, and fill `[oldCap, newCap)` with the expand value when widening. -/
def allocImpl (sizeT : Nat) (expandVal : α) (m : FileMapped α) (newCap : Nat) :
    FileMapped α × List α :=
  let capBytes := newCap * sizeT
  let destroyed :=
    if newCap < m.capacity then (m.view).drop newCap else []
  let fileLen2 := max m.fileLen capBytes
  let content2 : Nat → α :=
    if m.capacity < newCap then
      fun i => if m.capacity ≤ i ∧ i < newCap then expandVal else m.content i
    else m.content
  ({ content := content2,
     fileLen := fileLen2,
     mappedLen := capBytes,
     capacity := newCap }, destroyed)

/-- `RawMem::shrink` default (old API, `src/src/traits.rs` lines 191-196):
`allocated().checked_sub(count).ok_or(CapacityOverflow)?` is modelled by
the bound test, then `alloc(allocated - count)`. -/
def shrink (sizeT : Nat) (expandVal : α) (m : FileMapped α) (count : Nat) :
    Except Error (FileMapped α × List α) :=
  if count ≤ m.capacity then
    .ok (allocImpl sizeT expandVal m (m.capacity - count))
  else
    .error .CapacityOverflow

/-- `RawMem::grow` default (old API, `src/src/traits.rs` lines 179-184), as
used by `FileMapped`:
`allocated().checked_add(addition).ok_or(CapacityOverflow)?` is modelled by
the bound test, then `alloc(allocated + addition)` (success path
`alloc_impl`).  Note that this path performs no layout computation: the byte
size `capacity * size_of::<T>()` inside `alloc_impl` is unchecked. -/
def grow (sizeT : Nat) (expandVal : α) (m : FileMapped α) (addition : Nat) :
    Except Error (FileMapped α × List α) :=
  if m.capacity + addition ≤ USIZE_MAX then
    .ok (allocImpl sizeT expandVal m (m.capacity + addition))
  else
    .error .CapacityOverflow

end FileMapped

/-- Concrete mapped-file state used by the Claim C5 witness: three `u64`
elements, a one-`KiB`-plus file, everything mapped. -/
def c5FmEx : FileMapped Nat :=
  { content := fun i => i, fileLen := 1024, mappedLen := 24, capacity := 3 }

/-- Concrete mapped-file state used by the Claim C3 witness: two `u64`
elements in a 1024-byte file. -/
def c3FmEx : FileMapped Nat :=
  { content := fun i => i, fileLen := 1024, mappedLen := 16, capacity := 2 }

/-- Concrete mapped-file state used by the Claim C8 counterexample: two `u64`
elements in a 1024-byte file. -/
def c8FmEx : FileMapped Nat :=
  { content := fun i => i, fileLen := 1024, mappedLen := 16, capacity := 2 }

/-- Concrete mapped-file state used by the Claim C8 witness: four `u64`
elements in a 8192-byte file. -/
def c8FmWitnessEx : FileMapped Nat :=
  { content := fun i => i + 10, fileLen := 8192, mappedLen := 32, capacity := 4 }

/-! ## Helper lemmas -/

theorem filterMap_id_map_some (l : List α) : (l.map some).filterMap id = l := by
  induction l with
  | nil => rfl
  | cons a t ih => simp [ih]

theorem range_map_eq_take (f : Nat → α) {n m : Nat} (h : n ≤ m) :
    (List.range n).map f = ((List.range m).map f).take n := by
  rw [← List.map_take, List.take_range, Nat.min_eq_left h]

theorem usize_max_pos : 0 < USIZE_MAX := by norm_num [USIZE_MAX]

theorem isize_lt_usize : ISIZE_MAX < USIZE_MAX := by
  norm_num [ISIZE_MAX, USIZE_MAX]

/-! ## Claims -/

/-- Claim C1 (counterexample): with one previously-existing element `1` and an
initializer that panics after writing the single value `5` into a
two-element new region, the code does not roll back: the reported capacity
is not the old capacity `1`, the destroyed elements are not exactly the
initialized new value `[5]`, and the old element `1` does not survive. -/
theorem c1_grow_panic_rollback_counterexample :
    ¬ ((growPanicAftermath [(1 : Nat)] [5] 2).capAfter = 1 ∧
       (growPanicAftermath [(1 : Nat)] [5] 2).destroyed = [5] ∧
       (growPanicAftermath [(1 : Nat)] [5] 2).survivors = [1]) := by
  decide

/-- Claim C1 (amended): if the initializer supplied to a grow operation
panics after initializing the proper prefix `vals` of the new region, then
afterwards the block's reported capacity is `0` (not the capacity before the
call), the destroyed elements are the initialized prefix of the new region
followed by every previously-existing element, and nothing survives: the
unwinding guards empty the whole block. -/
theorem c1_grow_panic_full_teardown (old vals : List α) (addition : Nat)
    (h : vals.length ≤ addition) :
    growPanicAftermath old vals addition =
      { capAfter := 0, destroyed := vals ++ old, survivors := [] } := by
  have hold : (old.map (some : α → Option α)).length = old.length := by
    simp
  have hvals : (vals.map (some : α → Option α)).length = vals.length := by
    simp
  simp only [growPanicAftermath, dropInPlace]
  refine congrArg₂ (fun d s => PanicAftermath.mk 0 d s) ?_ ?_
  · have h1 : ((old.map some ++ (vals.map some ++
        List.replicate (addition - vals.length) (none : Option α))).drop
          old.length) =
        vals.map some ++ List.replicate (addition - vals.length) none := by
      rw [List.drop_left' hold]
    have h2 : ((vals.map some ++
        List.replicate (addition - vals.length) (none : Option α)).take
          vals.length) = vals.map some := by
      rw [List.take_left' hvals]
    have h3 : ((old.map some ++ (vals.map some ++
        List.replicate (addition - vals.length) (none : Option α))).take
          old.length) = old.map some := by
      rw [List.take_left' hold]
    rw [h1, h2, filterMap_id_map_some, h3, List.drop_zero,
      List.take_left' hold, filterMap_id_map_some]
  · simp

/-- Claim C1 (witness for the amended theorem): concrete instance with one
old element, one initialized new value, and a two-element new region. -/
theorem c1_grow_panic_full_teardown_witness :
    [(5 : Nat)].length ≤ 2 ∧
      growPanicAftermath [(1 : Nat)] [5] 2 =
        { capAfter := 0, destroyed := [5, 1], survivors := [] } :=
  ⟨by decide, c1_grow_panic_full_teardown [(1 : Nat)] [5] 2 (by decide)⟩

/-- Claim C2 (code bug): the round trip holds for the heap and async file
backends, but the fixed-buffer backend breaks it because `PreAlloc::shrink`
is `todo!()`: over a one-element caller buffer, `grow_filled(1, 7)` succeeds
and publishes one element, and the subsequent `shrink(1)` panics (produces no
result) instead of leaving the block empty. -/
theorem c2_prealloc_round_trip_panics :
    PreAlloc.growFilled (PreAlloc.new [(0 : Nat)]) 1 7 =
      Except.ok { place := [7], used := 1 } ∧
    PreAlloc.shrink { place := [(7 : Nat)], used := 1 } 1 = none :=
  ⟨rfl, rfl⟩

/-- Claim C3 (counterexample): on the fixed-buffer backend over a one-element
buffer, `grow_filled(usize::MAX, v)` on the empty block does not fail with
`CapacityOverflow`: `0 + usize::MAX` does not overflow, and the request is
instead rejected as `OverAlloc { available: 1, to_alloc: usize::MAX }`. -/
theorem c3_prealloc_max_grow_counterexample :
    PreAlloc.growFilled (PreAlloc.new [(0 : Nat)]) USIZE_MAX 7 =
      Except.error (Error.OverAlloc 1 USIZE_MAX) ∧
    Error.OverAlloc 1 USIZE_MAX ≠ Error.CapacityOverflow := by
  constructor
  · simp only [PreAlloc.growFilled, PreAlloc.grow, PreAlloc.new]
    rw [if_pos (by norm_num), if_neg (by norm_num [USIZE_MAX])]
    simp
  · simp

/-- Claim C3 (amended): a grow request whose addition added to the current
capacity overflows `usize` fails with `CapacityOverflow` on every backend
whose grow path is in the sources — the fixed-buffer backend
(`PreAlloc::grow`), the async file backend, and the mapped-file backend
(through the `RawMem::grow` default of `traits.rs`, which `FileMapped`
uses); `grow_filled(usize::MAX, v)` on an empty block fails with
`CapacityOverflow` for the async file backend (its `Layout::array`
computation exceeds `isize::MAX` whenever the item size is nonzero), while
the fixed-buffer backend rejects the same request with
`OverAlloc { available: L, to_alloc: usize::MAX }`.  The in-source
mapped-file grow performs no layout computation at all, so the
layout-overflow half of the claim does not apply to it. -/
theorem c3_capacity_overflow (p : PreAlloc α) (addition : Nat) (vals : List α)
    (m : AsyncFileMem α) (sizeT : Nat) (v : α)
    (hp : USIZE_MAX < p.used + addition)
    (hm : USIZE_MAX < m.buffer.length + addition)
    (fmm : FileMapped α) (sizeTf : Nat) (evf : α)
    (hfm : USIZE_MAX < fmm.capacity + addition)
    (memp : AsyncFileMem α) (hempty : memp.buffer = [])
    (hsz : 1 ≤ sizeT)
    (q : PreAlloc α) (hq : q.used = 0) (hqlen : q.place.length < USIZE_MAX) :
    PreAlloc.grow p addition vals = Except.error Error.CapacityOverflow ∧
    AsyncFileMem.growFilled sizeT m addition v =
      Except.error Error.CapacityOverflow ∧
    FileMapped.grow sizeTf evf fmm addition =
      Except.error Error.CapacityOverflow ∧
    AsyncFileMem.growFilled sizeT memp USIZE_MAX v =
      Except.error Error.CapacityOverflow ∧
    PreAlloc.growFilled q USIZE_MAX v =
      Except.error (Error.OverAlloc q.place.length USIZE_MAX) := by
  have hlay : ¬ layoutArrayOk sizeT (0 + USIZE_MAX) = true := by
    simp only [layoutArrayOk, decide_eq_true_eq, not_le, Nat.zero_add]
    have h1 : USIZE_MAX ≤ USIZE_MAX * sizeT := Nat.le_mul_of_pos_right _ hsz
    have h2 := isize_lt_usize
    omega
  refine ⟨?_, ?_, ?_, ?_, ?_⟩
  · simp only [PreAlloc.grow]
    rw [if_neg (by omega)]
  · simp only [AsyncFileMem.growFilled]
    rw [if_neg (by omega)]
  · simp only [FileMapped.grow]
    rw [if_neg (by omega)]
  · simp only [AsyncFileMem.growFilled, hempty, List.length_nil]
    rw [if_pos (by omega), if_neg hlay]
  · simp only [PreAlloc.growFilled, PreAlloc.grow, hq]
    rw [if_pos (by omega), if_neg (by omega)]
    simp

/-- Claim C3 (witness): concrete instances for each arm of the amended
theorem. -/
theorem c3_capacity_overflow_witness :
    PreAlloc.grow { place := [(0 : Nat)], used := 1 } USIZE_MAX [] =
      Except.error Error.CapacityOverflow ∧
    AsyncFileMem.growFilled 8
        { buffer := [(5 : Nat)], pathIsSome := true, dirty := false }
        USIZE_MAX 7 = Except.error Error.CapacityOverflow ∧
    FileMapped.grow 8 (0 : Nat) c3FmEx USIZE_MAX =
      Except.error Error.CapacityOverflow ∧
    AsyncFileMem.growFilled 8
        { buffer := ([] : List Nat), pathIsSome := true, dirty := false }
        USIZE_MAX 7 = Except.error Error.CapacityOverflow ∧
    PreAlloc.growFilled (PreAlloc.new [(0 : Nat)]) USIZE_MAX 7 =
      Except.error (Error.OverAlloc 1 USIZE_MAX) := by
  have h := c3_capacity_overflow
    { place := [(0 : Nat)], used := 1 } USIZE_MAX []
    { buffer := [(5 : Nat)], pathIsSome := true, dirty := false } 8 7
    (by norm_num [USIZE_MAX])
    (by norm_num [USIZE_MAX])
    c3FmEx 8 0
    (by norm_num [USIZE_MAX, c3FmEx])
    { buffer := ([] : List Nat), pathIsSome := true, dirty := false } rfl
    (by norm_num)
    (PreAlloc.new [(0 : Nat)]) rfl (by norm_num [USIZE_MAX, PreAlloc.new])
  exact h

/-- Claim C4 (counterexample): with a one-element buffer already fully used
(`L = u = 1`), a grow by `usize::MAX` satisfies `u + addition > L`, yet the
code fails with `CapacityOverflow` (the `checked_add` overflows) instead of
the claimed `OverAlloc { available: L, to_alloc: u + addition }`. -/
theorem c4_overalloc_counterexample :
    PreAlloc.grow { place := [(0 : Nat)], used := 1 } USIZE_MAX [] =
      Except.error Error.CapacityOverflow ∧
    1 + USIZE_MAX > 1 ∧
    Error.CapacityOverflow ≠ Error.OverAlloc 1 (1 + USIZE_MAX) := by
  refine ⟨?_, by norm_num [USIZE_MAX], by simp⟩
  simp only [PreAlloc.grow]
  rw [if_neg (by omega)]

/-- Claim C4 (amended): for the fixed-buffer backend over a buffer of length
`L` with used cursor `u`, a grow by `addition` with `u + addition` within
`usize` and exceeding `L` fails with
`OverAlloc { available: L, to_alloc: u + addition }` (while an overflowing
`u + addition` fails with `CapacityOverflow`), and in particular growing by
`L + 1` from empty fails with `OverAlloc { available: L, to_alloc: L + 1 }`;
the buffer itself is never touched on the error path. -/
theorem c4_overalloc (p : PreAlloc α) (addition : Nat) (vals : List α)
    (hrep : p.used + addition ≤ USIZE_MAX)
    (hover : p.place.length < p.used + addition)
    (q : List α) (w : α) (hq : q.length + 1 ≤ USIZE_MAX) :
    PreAlloc.grow p addition vals =
      Except.error (Error.OverAlloc p.place.length (p.used + addition)) ∧
    PreAlloc.growFilled (PreAlloc.new q) (q.length + 1) w =
      Except.error (Error.OverAlloc q.length (q.length + 1)) := by
  constructor
  · simp only [PreAlloc.grow]
    rw [if_pos hrep, if_neg (by omega)]
  · simp only [PreAlloc.growFilled, PreAlloc.grow, PreAlloc.new]
    rw [if_pos (by omega), if_neg (by omega)]
    simp

/-- Claim C4 (witness): buffer of length `L = 3`, used cursor `2`, grow by
`2`; and the `L + 1`-from-empty instance. -/
theorem c4_overalloc_witness :
    PreAlloc.grow { place := [(0 : Nat), 0, 0], used := 2 } 2 [7, 7] =
      Except.error (Error.OverAlloc 3 4) ∧
    PreAlloc.growFilled (PreAlloc.new [(0 : Nat), 0, 0]) 4 7 =
      Except.error (Error.OverAlloc 3 4) := by
  have h := c4_overalloc { place := [(0 : Nat), 0, 0], used := 2 } 2 [7, 7]
    (by norm_num [USIZE_MAX]) (by norm_num)
    [(0 : Nat), 0, 0] 7 (by norm_num [USIZE_MAX])
  exact h

theorem length_flatMap_const (enc : α → List Nat) (sizeT : Nat)
    (hlen : ∀ a, (enc a).length = sizeT) (l : List α) :
    (l.flatMap enc).length = l.length * sizeT := by
  induction l with
  | nil => simp
  | cons a t ih =>
    simp only [List.flatMap_cons, List.length_append, List.length_cons,
      hlen, ih]
    ring

theorem decodeAt_zero (dec : List Nat → α) (sizeT : Nat)
    (hlen : (chunk : List Nat).length = sizeT) (rest : List Nat) :
    AsyncFileMem.decodeAt dec sizeT (chunk ++ rest) 0 = dec chunk := by
  simp only [AsyncFileMem.decodeAt, Nat.zero_mul, List.drop_zero]
  rw [List.take_left' hlen]

theorem decodeAt_succ (dec : List Nat → α) (sizeT : Nat)
    (hlen : (chunk : List Nat).length = sizeT) (rest : List Nat) (i : Nat) :
    AsyncFileMem.decodeAt dec sizeT (chunk ++ rest) (i + 1) =
      AsyncFileMem.decodeAt dec sizeT rest i := by
  simp only [AsyncFileMem.decodeAt]
  have h1 : (i + 1) * sizeT = sizeT + i * sizeT := by ring
  rw [h1, ← List.drop_drop, List.drop_left' hlen]

theorem decode_flatMap (enc : α → List Nat) (dec : List Nat → α) (sizeT : Nat)
    (hlen : ∀ a, (enc a).length = sizeT) (hdec : ∀ a, dec (enc a) = a)
    (l : List α) :
    (List.range l.length).map
      (AsyncFileMem.decodeAt dec sizeT (l.flatMap enc)) = l := by
  induction l with
  | nil => simp
  | cons a t ih =>
    rw [List.length_cons, List.range_succ_eq_map, List.map_cons,
      List.flatMap_cons, List.map_map]
    refine congrArg₂ List.cons ?_ ?_
    · rw [decodeAt_zero dec sizeT (hlen a), hdec]
    · rw [List.map_congr_left (fun i _ => by
        exact decodeAt_succ dec sizeT (hlen a) (t.flatMap enc) i)]
      exact ih

/-- Claim C5: for the async file backend and the memory-mapped-file backend,
a shrink by `count ≤ capacity` succeeds, destroys exactly the trailing
`count` elements, reduces the capacity by `count`, and leaves the remaining
front segment of the contents unchanged. -/
theorem c5_shrink_frame (m : AsyncFileMem α) (count : Nat)
    (h : count ≤ m.buffer.length)
    (fm : FileMapped β) (sizeT : Nat) (ev : β) (count2 : Nat)
    (h2 : count2 ≤ fm.capacity) :
    (∃ m', AsyncFileMem.shrink m count = Except.ok m' ∧
      m'.buffer = m.buffer.take (m.buffer.length - count) ∧
      m'.buffer.length = m.buffer.length - count ∧
      m'.buffer ++ m.buffer.drop (m.buffer.length - count) = m.buffer ∧
      (m.buffer.drop (m.buffer.length - count)).length = count) ∧
    (∃ fm' destroyed,
      FileMapped.shrink sizeT ev fm count2 = Except.ok (fm', destroyed) ∧
      fm'.capacity = fm.capacity - count2 ∧
      fm'.view = fm.view.take (fm.capacity - count2) ∧
      destroyed = fm.view.drop (fm.capacity - count2) ∧
      destroyed.length = count2) := by
  have hviewlen : (fm.view).length = fm.capacity := by
    simp [FileMapped.view]
  constructor
  · refine ⟨_, rfl, ?_, ?_, ?_, ?_⟩
    · simp only [saturatingSub]
    · simp only [saturatingSub, List.length_take]
      omega
    · simp only [saturatingSub]
      exact List.take_append_drop _ _
    · rw [List.length_drop]
      omega
  · have hA : FileMapped.shrink sizeT ev fm count2 =
        Except.ok (FileMapped.allocImpl sizeT ev fm (fm.capacity - count2)) := by
      simp only [FileMapped.shrink]
      rw [if_pos h2]
    have hcontent :
        (FileMapped.allocImpl sizeT ev fm (fm.capacity - count2)).1.content =
          fm.content := by
      simp only [FileMapped.allocImpl]
      rw [if_neg (by omega)]
    have hdest :
        (FileMapped.allocImpl sizeT ev fm (fm.capacity - count2)).2 =
          fm.view.drop (fm.capacity - count2) := by
      simp only [FileMapped.allocImpl]
      rcases Nat.lt_or_ge (fm.capacity - count2) fm.capacity with hlt | hge
      · rw [if_pos hlt]
      · rw [if_neg (by omega)]
        have hc : fm.capacity - count2 = fm.capacity := by omega
        rw [hc, ← hviewlen, List.drop_length]
    refine ⟨_, _, hA, rfl, ?_, hdest, ?_⟩
    · show (List.range (fm.capacity - count2)).map
        (FileMapped.allocImpl sizeT ev fm (fm.capacity - count2)).1.content = _
      rw [hcontent]
      exact range_map_eq_take fm.content (by omega)
    · rcases Nat.lt_or_ge (fm.capacity - count2) fm.capacity with hlt | hge
      · rw [if_pos hlt, List.length_drop, hviewlen]
        omega
      · rw [if_neg (by omega)]
        simp only [List.length_nil]
        omega

/-- Claim C5 (witness): async backend with three elements shrunk by two, and
a mapped file with three elements shrunk by one. -/
theorem c5_shrink_frame_witness :
    (2 ≤ ([(1 : Nat), 2, 3]).length) ∧ (1 ≤ c5FmEx.capacity) ∧
    ((∃ m', AsyncFileMem.shrink
        { buffer := [(1 : Nat), 2, 3], pathIsSome := true, dirty := false }
        2 = Except.ok m' ∧
      m'.buffer = [(1 : Nat), 2, 3].take 1 ∧
      m'.buffer.length = 1 ∧
      m'.buffer ++ [(1 : Nat), 2, 3].drop 1 = [1, 2, 3] ∧
      ([(1 : Nat), 2, 3].drop 1).length = 2) ∧
    (∃ fm' destroyed,
      FileMapped.shrink 8 (0 : Nat) c5FmEx 1 = Except.ok (fm', destroyed) ∧
      fm'.capacity = 2 ∧
      fm'.view = c5FmEx.view.take 2 ∧
      destroyed = c5FmEx.view.drop 2 ∧
      destroyed.length = 1)) :=
  ⟨by decide, by decide,
    c5_shrink_frame
      { buffer := [(1 : Nat), 2, 3], pathIsSome := true, dirty := false } 2
      (by decide) c5FmEx 8 (0 : Nat) 1 (by decide)⟩

/-- Claim C6: for the async file backend, every successful mutating call
(each grow variant, an in-range `set`, `shrink`, `as_slice_mut`) leaves the
dirty flag `true`; a successfully completing `sync` or `flush` leaves it
`false`; and dropping the handle leaves the file content untouched. -/
theorem c6_async_dirty_tracking
    (m₁ : AsyncFileMem α) (i : Nat) (v : α) (m₁' : AsyncFileMem α)
    (hset : AsyncFileMem.set m₁ i v = some m₁')
    (sizeT n : Nat) (z : α)
    (m₂ m₂' : AsyncFileMem α) (hgz : AsyncFileMem.growZeroed sizeT z m₂ n = Except.ok m₂')
    (m₃ m₃' : AsyncFileMem α) (hgf : AsyncFileMem.growFilled sizeT m₃ n v = Except.ok m₃')
    (f : Nat → α)
    (m₄ m₄' : AsyncFileMem α) (hgw : AsyncFileMem.growWith sizeT m₄ n f = Except.ok m₄')
    (src : List α)
    (m₅ m₅' : AsyncFileMem α) (hgs : AsyncFileMem.growFromSlice sizeT m₅ src = Except.ok m₅')
    (m₆ : AsyncFileMem α) (count : Nat)
    (m₇ : AsyncFileMem α)
    (enc : α → List Nat) (m₈ m₉ mdr : AsyncFileMem α) (file file2 file3 : List Nat) :
    m₁'.dirty = true ∧ m₂'.dirty = true ∧ m₃'.dirty = true ∧
    m₄'.dirty = true ∧ m₅'.dirty = true ∧
    (∃ m₆', AsyncFileMem.shrink m₆ count = Except.ok m₆' ∧ m₆'.dirty = true) ∧
    (AsyncFileMem.asSliceMut m₇).1.dirty = true ∧
    (AsyncFileMem.sync enc m₈ file).1.dirty = false ∧
    (AsyncFileMem.flush enc m₉ file2).1.dirty = false ∧
    AsyncFileMem.dropFile mdr file3 = file3 := by
  refine ⟨?_, ?_, ?_, ?_, ?_, ⟨_, rfl, rfl⟩, rfl, ?_, ?_, rfl⟩
  · unfold AsyncFileMem.set at hset
    split at hset
    · cases hset; rfl
    · cases hset
  · unfold AsyncFileMem.growZeroed at hgz
    split at hgz
    · split at hgz
      · cases hgz; rfl
      · cases hgz
    · cases hgz
  · unfold AsyncFileMem.growFilled at hgf
    split at hgf
    · split at hgf
      · cases hgf; rfl
      · cases hgf
    · cases hgf
  · unfold AsyncFileMem.growWith at hgw
    split at hgw
    · split at hgw
      · cases hgw; rfl
      · cases hgw
    · cases hgw
  · unfold AsyncFileMem.growFromSlice at hgs
    split at hgs
    · split at hgs
      · cases hgs; rfl
      · cases hgs
    · cases hgs
  · unfold AsyncFileMem.sync
    split <;> rfl
  · unfold AsyncFileMem.flush
    split <;> rfl

/-- Claim C6 (witness): one concrete instance for every mutating operation,
plus `sync`, `flush` and drop. -/
theorem c6_async_dirty_tracking_witness :
    (({ buffer := [(5 : Nat)], pathIsSome := true, dirty := true }
        : AsyncFileMem Nat).dirty = true ∧
     ({ buffer := [(0 : Nat), 0], pathIsSome := true, dirty := true }
        : AsyncFileMem Nat).dirty = true ∧
     ({ buffer := [(5 : Nat), 5], pathIsSome := true, dirty := true }
        : AsyncFileMem Nat).dirty = true ∧
     ({ buffer := [(9 : Nat), 9], pathIsSome := true, dirty := true }
        : AsyncFileMem Nat).dirty = true ∧
     ({ buffer := [(4 : Nat)], pathIsSome := true, dirty := true }
        : AsyncFileMem Nat).dirty = true ∧
     (∃ m₆', AsyncFileMem.shrink
        ({ buffer := [(1 : Nat)], pathIsSome := true, dirty := false })
        1 = Except.ok m₆' ∧ m₆'.dirty = true) ∧
     (AsyncFileMem.asSliceMut
        ({ buffer := [(2 : Nat)], pathIsSome := true, dirty := false })).1.dirty
        = true ∧
     (AsyncFileMem.sync (fun a => [a])
        ({ buffer := [(3 : Nat)], pathIsSome := true, dirty := true })
        []).1.dirty = false ∧
     (AsyncFileMem.flush (fun a => [a])
        ({ buffer := [(3 : Nat)], pathIsSome := false, dirty := true })
        [9]).1.dirty = false ∧
     AsyncFileMem.dropFile
        ({ buffer := [(3 : Nat)], pathIsSome := true, dirty := true }
          : AsyncFileMem Nat) [7, 7] = [7, 7]) :=
  c6_async_dirty_tracking
    { buffer := [(1 : Nat)], pathIsSome := true, dirty := false } 0 5
    { buffer := [(5 : Nat)], pathIsSome := true, dirty := true } rfl
    1 2 0
    { buffer := [], pathIsSome := true, dirty := false }
    { buffer := [(0 : Nat), 0], pathIsSome := true, dirty := true } rfl
    { buffer := [], pathIsSome := true, dirty := false }
    { buffer := [(5 : Nat), 5], pathIsSome := true, dirty := true } rfl
    (fun _ => 9)
    { buffer := [], pathIsSome := true, dirty := false }
    { buffer := [(9 : Nat), 9], pathIsSome := true, dirty := true } rfl
    [4]
    { buffer := [], pathIsSome := true, dirty := false }
    { buffer := [(4 : Nat)], pathIsSome := true, dirty := true } rfl
    { buffer := [(1 : Nat)], pathIsSome := true, dirty := false } 1
    { buffer := [(2 : Nat)], pathIsSome := true, dirty := false }
    (fun a => [a])
    { buffer := [(3 : Nat)], pathIsSome := true, dirty := true }
    { buffer := [(3 : Nat)], pathIsSome := false, dirty := true }
    { buffer := [(3 : Nat)], pathIsSome := true, dirty := true }
    [] [9] [7, 7]

/-- Claim C7: for the async file backend over a byte-representable item type
(encoder `enc` producing exactly `size_of::<T>()` bytes per element, decoder
`dec` inverting it), `sync` writes exactly `buffer.len * size_of::<T>()`
bytes, and opening the synced file reproduces the buffer — the same elements
in the same order and values. -/
theorem c7_persistence (sizeT : Nat) (enc : α → List Nat) (dec : List Nat → α)
    (hsz : 0 < sizeT) (hlen : ∀ a, (enc a).length = sizeT)
    (hdec : ∀ a, dec (enc a) = a)
    (m : AsyncFileMem α) (file : List Nat) (hpath : m.pathIsSome = true) :
    (AsyncFileMem.sync enc m file).2.length = m.buffer.length * sizeT ∧
    (AsyncFileMem.openFile dec sizeT
        (AsyncFileMem.sync enc m file).2).buffer = m.buffer := by
  have hfile : (AsyncFileMem.sync enc m file).2 = m.buffer.flatMap enc := by
    simp only [AsyncFileMem.sync, hpath]
    rfl
  have hflen : (m.buffer.flatMap enc).length = m.buffer.length * sizeT :=
    length_flatMap_const enc sizeT hlen m.buffer
  refine ⟨by rw [hfile, hflen], ?_⟩
  rw [hfile]
  rcases Nat.eq_zero_or_pos m.buffer.length with hz | hpos
  · rw [List.length_eq_zero] at hz
    rw [hz]
    simp [AsyncFileMem.openFile]
  · simp only [AsyncFileMem.openFile, hflen]
    rw [if_pos ⟨by positivity, hsz⟩, Nat.mul_div_cancel _ hsz,
      List.take_of_length_le (by rw [hflen])]
    exact decode_flatMap enc dec sizeT hlen hdec m.buffer

/-- Claim C7 (witness): three one-byte elements written through `sync` and
read back through `open`. -/
theorem c7_persistence_witness :
    (0 < 1) ∧ (∀ a : Nat, ([a].length = 1)) ∧
    (∀ a : Nat, ([a].headD 0 = a)) ∧
    ((AsyncFileMem.sync (fun a => [a])
        { buffer := [(3 : Nat), 1, 4], pathIsSome := true, dirty := true }
        [9, 9]).2.length = 3 * 1 ∧
     (AsyncFileMem.openFile (fun l => l.headD 0) 1
        (AsyncFileMem.sync (fun a => [a])
          { buffer := [(3 : Nat), 1, 4], pathIsSome := true, dirty := true }
          [9, 9]).2).buffer = [3, 1, 4]) :=
  ⟨Nat.one_pos, fun _ => rfl, fun _ => rfl,
    c7_persistence 1 (fun a => [a]) (fun l => l.headD 0) Nat.one_pos
      (fun _ => rfl) (fun _ => rfl)
      { buffer := [(3 : Nat), 1, 4], pathIsSome := true, dirty := true }
      [9, 9] rfl⟩

/-- Claim C8 (counterexample): shrinking a two-element (`u64`) mapped file
with a 1024-byte backing file by one element leaves the file at 1024 bytes —
it is not truncated to the smaller byte length `(2 - 1) * 8 = 8`. -/
theorem c8_shrink_truncation_counterexample :
    (FileMapped.shrink 8 (0 : Nat) c8FmEx 1).map
        (fun r => (r.1.fileLen, r.1.mappedLen, r.1.capacity)) =
      Except.ok (1024, 8, 1) ∧
    (1024 : Nat) ≠ (2 - 1) * 8 := by
  constructor
  · rfl
  · norm_num

/-- Claim C8 (amended): a successful shrink of the mapped-file backend
destroys the trailing elements and remaps over the smaller mapped length
(`new capacity * item size` bytes), but the backing file is never truncated:
its length is set to `max(file_len, new_byte_len)`, which leaves it
unchanged whenever the file already holds the current capacity. -/
theorem c8_shrink_keeps_file_len (sizeT : Nat) (ev : α) (m : FileMapped α)
    (count : Nat) (h : count ≤ m.capacity)
    (hinv : m.capacity * sizeT ≤ m.fileLen) :
    ∃ m' d, FileMapped.shrink sizeT ev m count = Except.ok (m', d) ∧
      m'.fileLen = max m.fileLen ((m.capacity - count) * sizeT) ∧
      m'.fileLen = m.fileLen ∧
      m'.mappedLen = (m.capacity - count) * sizeT ∧
      m'.capacity = m.capacity - count ∧
      d = m.view.drop (m.capacity - count) := by
  have hA : FileMapped.shrink sizeT ev m count =
      Except.ok (FileMapped.allocImpl sizeT ev m (m.capacity - count)) := by
    simp only [FileMapped.shrink]
    rw [if_pos h]
  have hle : (m.capacity - count) * sizeT ≤ m.fileLen :=
    le_trans (Nat.mul_le_mul_right _ (by omega)) hinv
  have hdest :
      (FileMapped.allocImpl sizeT ev m (m.capacity - count)).2 =
        m.view.drop (m.capacity - count) := by
    simp only [FileMapped.allocImpl]
    rcases Nat.lt_or_ge (m.capacity - count) m.capacity with hlt | hge
    · rw [if_pos hlt]
    · rw [if_neg (by omega)]
      have hc : m.capacity - count = m.capacity := by omega
      have hviewlen : (m.view).length = m.capacity := by simp [FileMapped.view]
      rw [hc, ← hviewlen, List.drop_length]
  refine ⟨_, _, hA, rfl, ?_, rfl, rfl, hdest⟩
  show max m.fileLen ((m.capacity - count) * sizeT) = m.fileLen
  exact Nat.max_eq_left hle

/-- Claim C8 (witness): four `u64` elements in a 8192-byte file shrunk by
two. -/
theorem c8_shrink_keeps_file_len_witness :
    (2 ≤ c8FmWitnessEx.capacity) ∧
    (c8FmWitnessEx.capacity * 8 ≤ c8FmWitnessEx.fileLen) ∧
    (∃ m' d, FileMapped.shrink 8 (0 : Nat) c8FmWitnessEx 2 =
        Except.ok (m', d) ∧
      m'.fileLen = max c8FmWitnessEx.fileLen 16 ∧
      m'.fileLen = 8192 ∧
      m'.mappedLen = 16 ∧
      m'.capacity = 2 ∧
      d = c8FmWitnessEx.view.drop 2) :=
  ⟨by decide, by decide,
    c8_shrink_keeps_file_len 8 (0 : Nat) c8FmWitnessEx 2 (by decide)
      (by decide)⟩

/-- Claim C9 (counterexample): constructing the mapped-file backend for a
`u64`-sized item over an empty file leaves the file at
`DEFAULT_PAGE_SIZE / size_of::<T>() = 1024` bytes, which is less than one
default page (8192 bytes): the code compares the byte length against an
element count. -/
theorem c9_min_len_counterexample :
    (FileMapped.newWith 8 0 (fun _ => (0 : Nat))).fileLen = 1024 ∧
    (1024 : Nat) < DEFAULT_PAGE_SIZE := by
  constructor
  · rfl
  · norm_num [DEFAULT_PAGE_SIZE]

/-- Claim C9 (amended): after successful construction from a file, the
file's length is at least `DEFAULT_PAGE_SIZE / size_of::<T>()` — a default
page's worth of elements, not of bytes — and the file is extended to exactly
that value when it was shorter, left unchanged otherwise. -/
theorem c9_min_file_len (sizeT fileLen0 : Nat) (c0 : Nat → α) :
    DEFAULT_PAGE_SIZE / sizeT ≤
      (FileMapped.newWith sizeT fileLen0 c0).fileLen ∧
    (fileLen0 ≤ DEFAULT_PAGE_SIZE / sizeT →
      (FileMapped.newWith sizeT fileLen0 c0).fileLen =
        DEFAULT_PAGE_SIZE / sizeT) ∧
    (DEFAULT_PAGE_SIZE / sizeT ≤ fileLen0 →
      (FileMapped.newWith sizeT fileLen0 c0).fileLen = fileLen0) := by
  refine ⟨?_, fun hle => ?_, fun hge => ?_⟩
  · exact le_max_right _ _
  · exact Nat.max_eq_right hle
  · exact Nat.max_eq_left hge

/-- Claim C9 (witness): `u64` items over an empty file: minimum length
`8192 / 8 = 1024` is taken; over a 9000-byte file the length is kept. -/
theorem c9_min_file_len_witness :
    (DEFAULT_PAGE_SIZE / 8 ≤
      (FileMapped.newWith 8 0 (fun _ => (0 : Nat))).fileLen) ∧
    ((0 : Nat) ≤ DEFAULT_PAGE_SIZE / 8) ∧
    ((FileMapped.newWith 8 0 (fun _ => (0 : Nat))).fileLen =
      DEFAULT_PAGE_SIZE / 8) ∧
    (DEFAULT_PAGE_SIZE / 8 ≤ (9000 : Nat)) ∧
    ((FileMapped.newWith 8 9000 (fun _ => (0 : Nat))).fileLen = 9000) :=
  ⟨(c9_min_file_len 8 0 (fun _ => (0 : Nat))).1,
   Nat.zero_le _,
   (c9_min_file_len 8 0 (fun _ => (0 : Nat))).2.1 (Nat.zero_le _),
   by norm_num [DEFAULT_PAGE_SIZE],
   (c9_min_file_len 8 9000 (fun _ => (0 : Nat))).2.2
     (by norm_num [DEFAULT_PAGE_SIZE])⟩

/-- Claim C10: the async backend's `shrink(count)` is total — it never
panics and always returns `Ok` — and truncates the buffer to
`len - min(count, len)` elements, so over-shrinking (`count > len`) leaves
the block empty. -/
theorem c10_async_overshrink (m : AsyncFileMem α) (count : Nat) :
    ∃ m', AsyncFileMem.shrink m count = Except.ok m' ∧
      m'.buffer.length = m.buffer.length - min count m.buffer.length ∧
      m'.buffer = m.buffer.take (m.buffer.length - count) ∧
      (m.buffer.length ≤ count → m'.buffer = []) := by
  refine ⟨_, rfl, ?_, ?_, ?_⟩
  · simp only [saturatingSub, List.length_take]
    omega
  · simp only [saturatingSub]
  · intro hle
    simp only [saturatingSub]
    rw [show m.buffer.length - count = 0 by omega, List.take_zero]

/-- Claim C10 (witness): a three-element buffer over-shrunk by five comes
back empty, with no error. -/
theorem c10_async_overshrink_witness :
    ∃ m', AsyncFileMem.shrink
        { buffer := [(1 : Nat), 2, 3], pathIsSome := true, dirty := false }
        5 = Except.ok m' ∧
      m'.buffer.length = 3 - min 5 3 ∧
      m'.buffer = [(1 : Nat), 2, 3].take (3 - 5) ∧
      (3 ≤ 5 → m'.buffer = []) :=
  c10_async_overshrink
    { buffer := [(1 : Nat), 2, 3], pathIsSome := true, dirty := false } 5

end MemRs
